import Mathlib

/-
Shallow embedding of the e-commerce backend (src/server.js).

Conventions of the embedding:
* Mongo ObjectIds are modelled as natural numbers (`Id`); the database
  assigns fresh ids from a `nextId` counter.
* Each collection is a list of documents; `findOne` is `List.find?` on the
  relevant field, `save` of an existing document replaces the document with
  the same id, an insert appends at the end.
* JS numbers carried by the API (price, totalAmount, quantity) are modelled
  as integers; JS truthiness of a number is `n ≠ 0`, of a string `s ≠ ""`,
  of a missing field `false` (fields that can be absent are `Option`).
* bcrypt is out of scope per the spec; it is modelled as an abstract
  injective encoding `bcryptHash` with `bcryptCompare p h = (bcryptHash p == h)`.
* Each route handler is a pure function from the database and the request
  to the HTTP response paired with the new database.  A `throw` caught by a
  handler's catch-all is the 500 branch of the function.
-/

namespace Backend

abbrev Id := Nat

/-- Model of the out-of-scope bcrypt hash (spec §1 treats hashing as an
external collaborator): an abstract injective encoding. -/
def bcryptHash (p : String) : String := "bcrypt$" ++ p

/-- Model of bcrypt.compare: a password matches exactly its own hash. -/
def bcryptCompare (password hash : String) : Bool := bcryptHash password == hash

/-- UserSchema (server.js lines 53-60). -/
structure UserDoc where
  id : Id
  name : String
  email : String
  password : String
  role : String
  isFirstLogin : Bool
  wishlist : List Id
deriving DecidableEq

/-- ProductSchema (server.js lines 62-67). -/
structure ProductDoc where
  id : Id
  name : String
  price : Int
  image : String
  category : String
deriving DecidableEq

/-- One entry of OrderSchema.products (server.js lines 71-78). -/
structure OrderItem where
  productId : Id
  productName : String
  productPrice : Int
  quantity : Int
deriving DecidableEq

/-- OrderSchema (server.js lines 69-82); createdAt is not modelled (wall
clock), no claim mentions it. -/
structure OrderDoc where
  userId : Id
  products : List OrderItem
  totalAmount : Int
  status : String
deriving DecidableEq

/-- The three Mongo collections plus the fresh-id counter. -/
structure DB where
  users : List UserDoc
  products : List ProductDoc
  orders : List OrderDoc
  nextId : Id
deriving DecidableEq

/-- User.findOne({email}) (server.js lines 96, 113, 138, 207). -/
def findUserByEmail (db : DB) (email : String) : Option UserDoc :=
  db.users.find? (fun u => u.email == email)

/-- Product.findById (server.js line 211). -/
def findProductById (db : DB) (i : Id) : Option ProductDoc :=
  db.products.find? (fun p => p.id == i)

/-- user.save() on an existing document: replace the document with the same
_id (server.js lines 124, 143). -/
def saveUser (db : DB) (u : UserDoc) : DB :=
  { db with users := db.users.map (fun v => if v.id == u.id then u else v) }

/-- Response shape of the auth routes: HTTP status, success flag, optional
message / role / isNewUser fields of the JSON body. -/
structure AuthResp where
  status : Nat
  success : Bool
  message : Option String
  role : Option String
  isNewUser : Option Bool
deriving DecidableEq

/-- Request body of POST /signup (server.js line 93); role is optional so
the schema default can apply. -/
structure SignupReq where
  name : String
  email : String
  password : String
  confirm : String
  role : Option String
deriving DecidableEq

/-- Mongoose role handling on save: the schema default "user" applies when
the field is undefined; a present value must satisfy the enum
["user","admin"] or the save throws a ValidationError (UserSchema line 57).
Returns none when the save would throw. -/
def resolveRole : Option String → Option String
  | none => some "user"
  | some r => if r == "user" || r == "admin" then some r else none

/-- POST /signup handler (server.js lines 91-107). -/
def signup (db : DB) (req : SignupReq) : AuthResp × DB :=
  if req.password ≠ req.confirm then
    ({ status := 400, success := false, message := some "Passwords do not match",
       role := none, isNewUser := none }, db)
  else
    match findUserByEmail db req.email with
    | some _ =>
      ({ status := 409, success := false, message := some "Email already exists",
         role := none, isNewUser := none }, db)
    | none =>
      match resolveRole req.role with
      | none =>
        ({ status := 500, success := false, message := some "Server error",
           role := none, isNewUser := none }, db)
      | some role =>
        let newUser : UserDoc :=
          { id := db.nextId, name := req.name, email := req.email,
            password := bcryptHash req.password, role := role,
            isFirstLogin := true, wishlist := [] }
        ({ status := 200, success := true, message := none,
           role := some role, isNewUser := none },
         { db with users := db.users ++ [newUser], nextId := db.nextId + 1 })

/-- POST /login handler (server.js lines 110-132). -/
def login (db : DB) (email password role : String) : AuthResp × DB :=
  match findUserByEmail db email with
  | none =>
    ({ status := 404, success := false, message := some "User not found",
       role := none, isNewUser := none }, db)
  | some user =>
    if ¬ bcryptCompare password user.password then
      ({ status := 401, success := false, message := some "Invalid password",
         role := none, isNewUser := none }, db)
    else if user.role ≠ role then
      ({ status := 403, success := false,
         message := some ("Incorrect role. Registered as " ++ user.role),
         role := none, isNewUser := none }, db)
    else
      let isNewUser := user.isFirstLogin
      let db2 := if isNewUser then saveUser db { user with isFirstLogin := false } else db
      ({ status := 200, success := true, message := none,
         role := some user.role, isNewUser := some isNewUser }, db2)

/-- Response shape of the wishlist / delete-product routes: HTTP status,
success flag, optional message. -/
structure SimpleResp where
  status : Nat
  success : Bool
  message : Option String
deriving DecidableEq

/-- POST /wishlist handler (server.js lines 135-151): no-op when the
productId is already present, otherwise append and save. -/
def addToWishlist (db : DB) (email : String) (productId : Id) : SimpleResp × DB :=
  match findUserByEmail db email with
  | none =>
    ({ status := 404, success := false, message := some "User not found" }, db)
  | some user =>
    if user.wishlist.contains productId then
      ({ status := 200, success := true, message := none }, db)
    else
      ({ status := 200, success := true, message := none },
       saveUser db { user with wishlist := user.wishlist ++ [productId] })

/-- Repeated application of the only wishlist mutator, used to describe the
states reachable through POST /wishlist requests. -/
def applyWishlistOps (db : DB) : List (String × Id) → DB
  | [] => db
  | (email, productId) :: ops => applyWishlistOps (addToWishlist db email productId).2 ops

/-- Request body of POST /products (server.js line 176) together with the
optional multer upload (req.file); absent fields are none. -/
structure ProductReq where
  name : Option String
  price : Option Int
  category : Option String
  imageUrl : Option String
  fileUpload : Option String
deriving DecidableEq

/-- JS truthiness of a possibly-absent string: undefined and "" are falsy. -/
def truthyStr : Option String → Bool
  | none => false
  | some s => s ≠ ""

/-- JS truthiness of a possibly-absent number: undefined and 0 are falsy. -/
def truthyInt : Option Int → Bool
  | none => false
  | some n => n ≠ 0

/-- Response of POST /products: status, success flag, message, and the
created product on success. -/
structure ProductResp where
  status : Nat
  success : Bool
  message : Option String
  product : Option ProductDoc
deriving DecidableEq

/-- Mongoose category validation on save: the field is required with enum
["men","women","kids"] (ProductSchema line 66); an invalid value makes the
save throw, reaching the handler's 500 branch. -/
def categoryEnumOk (c : String) : Bool := c == "men" || c == "women" || c == "kids"

/-- POST /products handler (server.js lines 174-191).  The required-field
check is on JS truthiness: `if (!name || !price || !category)`. -/
def createProduct (db : DB) (req : ProductReq) : ProductResp × DB :=
  if ¬ (truthyStr req.name && truthyInt req.price && truthyStr req.category) then
    ({ status := 400, success := false, message := some "All fields required",
       product := none }, db)
  else
    match req.fileUpload, (if truthyStr req.imageUrl then req.imageUrl else none) with
    | none, none =>
      ({ status := 400, success := false, message := some "Image is required",
         product := none }, db)
    | file?, url? =>
      let image : String :=
        match file? with
        | some f => "/uploads/" ++ f
        | none => url?.getD ""
      let name := req.name.getD ""
      let price := req.price.getD 0
      let category := req.category.getD ""
      if categoryEnumOk category then
        let product : ProductDoc :=
          { id := db.nextId, name := name, price := price, image := image,
            category := category }
        ({ status := 200, success := true, message := none, product := some product },
         { db with products := db.products ++ [product], nextId := db.nextId + 1 })
      else
        ({ status := 500, success := false, message := some "Server error",
           product := none }, db)

/-- DELETE /products/:id handler (server.js lines 193-201):
Product.findByIdAndDelete removes the document with the given _id when one
exists and is a no-op otherwise; the response is success either way. -/
def deleteProduct (db : DB) (i : Id) : SimpleResp × DB :=
  ({ status := 200, success := true, message := none },
   { db with products := db.products.eraseP (fun p => p.id == i) })

/-- One entry of the POST /orders request body products array. -/
structure OrderItemReq where
  productId : Id
  quantity : Int
deriving DecidableEq

/-- Request body of POST /orders (server.js line 206). -/
structure OrderReq where
  email : String
  products : List OrderItemReq
  totalAmount : Int
deriving DecidableEq

/-- One product lookup of the createOrder batch (server.js lines 211-218):
snapshot name and price, or throw when the product does not exist. -/
def resolveLine (db : DB) (p : OrderItemReq) : Except String OrderItem :=
  match findProductById db p.productId with
  | none => Except.error ("Product not found: " ++ toString p.productId)
  | some product =>
    Except.ok { productId := product.id, productName := product.name,
                productPrice := product.price, quantity := p.quantity }

/-- Promise.all over the per-line lookups (server.js line 210): the batch
resolves to the list of snapshots, or rejects as soon as any lookup
throws. -/
def resolveProducts (db : DB) : List OrderItemReq → Except String (List OrderItem)
  | [] => Except.ok []
  | p :: ps =>
    match resolveLine db p with
    | Except.error e => Except.error e
    | Except.ok item =>
      match resolveProducts db ps with
      | Except.error e => Except.error e
      | Except.ok items => Except.ok (item :: items)

/-- Response of POST /orders: status, success flag, message, and the created
order on success. -/
structure OrderResp where
  status : Nat
  success : Bool
  message : Option String
  order : Option OrderDoc
deriving DecidableEq

/-- POST /orders handler (server.js lines 204-228).  The throw inside the
batch is caught by the catch-all, which answers 500 "Failed to create
order"; the order is saved only after every lookup succeeded. -/
def createOrder (db : DB) (req : OrderReq) : OrderResp × DB :=
  match findUserByEmail db req.email with
  | none =>
    ({ status := 404, success := false, message := some "User not found",
       order := none }, db)
  | some user =>
    match resolveProducts db req.products with
    | Except.error _ =>
      ({ status := 500, success := false, message := some "Failed to create order",
         order := none }, db)
    | Except.ok productData =>
      let order : OrderDoc :=
        { userId := user.id, products := productData,
          totalAmount := req.totalAmount, status := "Pending" }
      ({ status := 200, success := true, message := none, order := some order },
       { db with orders := db.orders ++ [order] })

/-- Result of Order.aggregate [$group {_id:null, revenue:{$sum:"$totalAmount"}}]
(server.js line 258): an empty pipeline output on an empty collection, one
group holding the sum otherwise. -/
def aggregateRevenue (orders : List OrderDoc) : Option Int :=
  match orders with
  | [] => none
  | _ => some ((orders.map (fun o => o.totalAmount)).sum)

/-- JS expression `x?.revenue || 0` applied to the aggregation output
(server.js line 266): 0 when the output is empty, and || maps a falsy 0
revenue to 0. -/
def revenueOrZero : Option Int → Int
  | none => 0
  | some v => if v = 0 then 0 else v

/-- Response of GET /analytics (server.js lines 261-267). -/
structure Analytics where
  totalUsers : Nat
  totalAdmins : Nat
  totalProducts : Nat
  totalOrders : Nat
  totalRevenue : Int
deriving DecidableEq

/-- GET /analytics handler (server.js lines 251-272). -/
def getAnalytics (db : DB) : Analytics :=
  { totalUsers := db.users.length,
    totalAdmins := (db.users.filter (fun u => u.role == "admin")).length,
    totalProducts := db.products.length,
    totalOrders := db.orders.length,
    totalRevenue := revenueOrZero (aggregateRevenue db.orders) }

/-- Concrete user for instantiating theorems. -/
def userW : UserDoc :=
  { id := 1, name := "Asha", email := "asha@example.com",
    password := bcryptHash "pw1", role := "user", isFirstLogin := true,
    wishlist := [] }

/-- Concrete database: one user, no products, no orders. -/
def dbW : DB := { users := [userW], products := [], orders := [], nextId := 2 }

/-- Concrete order line referencing a product id that does not exist in dbW. -/
def orderItemW : OrderItemReq := { productId := 7, quantity := 1 }

/-- Concrete createOrder request by the existing user for the missing product. -/
def orderReqW : OrderReq :=
  { email := "asha@example.com", products := [orderItemW], totalAmount := 10 }

/-- Concrete signup request whose password and confirm differ. -/
def signupReqMismatch : SignupReq :=
  { name := "Bo", email := "bo@example.com", password := "a", confirm := "b",
    role := none }

/-- Concrete signup request with no role field and a fresh email. -/
def signupReqNoRole : SignupReq :=
  { name := "Bo", email := "bo@example.com", password := "pw2", confirm := "pw2",
    role := none }

/-- The user of dbW after product 7 entered the wishlist once. -/
def userW5 : UserDoc := { userW with wishlist := [5] }

/-- Concrete createProduct request whose fields are all present but whose
price is the falsy number 0. -/
def prodReqZeroPrice : ProductReq :=
  { name := some "Tee", price := some 0, category := some "men",
    imageUrl := some "http://x/y.png", fileUpload := none }

/-- Lookup misses every element of the prefix, so appending a matching
element makes it the answer. -/
theorem find_append_single {α : Type} (p : α → Bool) (l : List α) (x : α)
    (hl : l.find? p = none) (hx : p x = true) : (l ++ [x]).find? p = some x := by
  induction l with
  | nil => simp [List.find?, hx]
  | cons a t ih =>
    rw [List.find?_eq_none] at hl
    have ha : ¬ p a = true := hl a (List.mem_cons_self a t)
    have ht : t.find? p = none :=
      List.find?_eq_none.2 (fun y hy => hl y (List.mem_cons_of_mem a hy))
    rw [List.cons_append, List.find?_cons_of_neg _ ha]
    exact ih ht

/-- After replacing every document with the found user's id by an update with
the same id and email, the email lookup answers the update. -/
theorem find_email_after_update (l : List UserDoc) (email : String) (u u2 : UserDoc)
    (hfind : l.find? (fun v => v.email == email) = some u)
    (hid : u2.id = u.id) (hemail : u2.email = u.email) :
    (l.map (fun v => if v.id == u2.id then u2 else v)).find?
      (fun v => v.email == email) = some u2 := by
  induction l with
  | nil => simp [List.find?] at hfind
  | cons a t ih =>
    by_cases hpa : (a.email == email) = true
    · rw [List.find?_cons_of_pos (p := fun (v : UserDoc) => v.email == email) _ hpa] at hfind
      injection hfind with hau
      subst hau
      have hida : (a.id == u2.id) = true := by simp [hid]
      have hp2 : (u2.email == email) = true := by rw [hemail]; exact hpa
      rw [List.map_cons, if_pos hida]
      exact List.find?_cons_of_pos (p := fun (v : UserDoc) => v.email == email) _ hp2
    · rw [List.find?_cons_of_neg (p := fun (v : UserDoc) => v.email == email) _ hpa] at hfind
      have hpu : (u.email == email) = true :=
        List.find?_some (p := fun (v : UserDoc) => v.email == email) hfind
      rw [List.map_cons]
      by_cases hida : (a.id == u2.id) = true
      · have hp2 : (u2.email == email) = true := by rw [hemail]; exact hpu
        rw [if_pos hida]
        exact List.find?_cons_of_pos (p := fun (v : UserDoc) => v.email == email) _ hp2
      · rw [if_neg hida,
          List.find?_cons_of_neg (p := fun (v : UserDoc) => v.email == email) _ hpa]
        exact ih hfind

/-- A single missing product makes the whole lookup batch reject. -/
theorem resolveProducts_error_of_missing (db : DB) (ps : List OrderItemReq)
    (h : ∃ it ∈ ps, findProductById db it.productId = none) :
    ∃ e, resolveProducts db ps = Except.error e := by
  induction ps with
  | nil => rcases h with ⟨it, hmem, _⟩; simp at hmem
  | cons p t ih =>
    rcases h with ⟨it, hmem, hnone⟩
    rcases List.mem_cons.1 hmem with heq | hmem2
    · subst heq
      exact ⟨"Product not found: " ++ toString it.productId,
        by simp [resolveProducts, resolveLine, hnone]⟩
    · rcases ih ⟨it, hmem2, hnone⟩ with ⟨e, he⟩
      cases hl : resolveLine db p with
      | error e2 => exact ⟨e2, by simp [resolveProducts, hl]⟩
      | ok item => exact ⟨e, by simp [resolveProducts, hl, he]⟩

/-- C2: whenever at least one referenced productId does not resolve to an
existing Product, no Order document is persisted — the Orders collection is
unchanged by the failed createOrder (all-or-nothing). -/
theorem C2_no_partial_order (db : DB) (req : OrderReq)
    (h : ∃ it ∈ req.products, findProductById db it.productId = none) :
    (createOrder db req).2.orders = db.orders := by
  rcases resolveProducts_error_of_missing db req.products h with ⟨e, he⟩
  cases hu : findUserByEmail db req.email with
  | none => simp [createOrder, hu]
  | some user => simp [createOrder, hu, he]

/-- C2 witness: the concrete failed createOrder leaves the Orders
collection unchanged. -/
theorem C2_witness : (createOrder dbW orderReqW).2.orders = dbW.orders :=
  C2_no_partial_order dbW orderReqW ⟨orderItemW, by decide, by decide⟩

/-- C1 counterexample: in dbW the user of the request exists and the
referenced product does not, yet createOrder answers HTTP 500, not the 404
the claim states. -/
theorem C1_counterexample :
    findUserByEmail dbW orderReqW.email = some userW ∧
    orderItemW ∈ orderReqW.products ∧
    findProductById dbW orderItemW.productId = none ∧
    (createOrder dbW orderReqW).1.status = 500 ∧
    ¬ (createOrder dbW orderReqW).1.status = 404 := by decide

/-- C1 (amended): when the user exists but some referenced productId does
not resolve to an existing Product, createOrder fails — but the generic
Error thrown in the lookup batch is caught by the handler's catch-all, so
the failure is reported as HTTP 500 "Failed to create order", not 404. -/
theorem C1_amended_missing_product_500 (db : DB) (req : OrderReq) (u : UserDoc)
    (hu : findUserByEmail db req.email = some u)
    (h : ∃ it ∈ req.products, findProductById db it.productId = none) :
    (createOrder db req).1.status = 500 ∧
    (createOrder db req).1.message = some "Failed to create order" := by
  rcases resolveProducts_error_of_missing db req.products h with ⟨e, he⟩
  simp [createOrder, hu, he]

/-- C1 witness: the amended statement holds at the concrete failed order. -/
theorem C1_witness :
    (createOrder dbW orderReqW).1.status = 500 ∧
    (createOrder dbW orderReqW).1.message = some "Failed to create order" :=
  C1_amended_missing_product_500 dbW orderReqW userW (by decide)
    ⟨orderItemW, by decide, by decide⟩

/-- C3: a signup request with password ≠ confirm returns status 400 and
leaves the Users collection unchanged, regardless of whether the email
already exists. -/
theorem C3_signup_password_mismatch (db : DB) (req : SignupReq)
    (h : req.password ≠ req.confirm) :
    (signup db req).1.status = 400 ∧ (signup db req).2.users = db.users := by
  simp [signup, h]

/-- C3 witness: the concrete mismatched signup yields 400 and no new user. -/
theorem C3_witness :
    (signup dbW signupReqMismatch).1.status = 400 ∧
    (signup dbW signupReqMismatch).2.users = dbW.users :=
  C3_signup_password_mismatch dbW signupReqMismatch (by decide)

/-- C4: a login with an existing email and matching password but a
different requested role returns 403, its message carries the stored role
(it is literally the suffix of the message, hence an infix), and the
database — in particular isFirstLogin — is unchanged. -/
theorem C4_login_role_mismatch (db : DB) (email password role : String) (u : UserDoc)
    (hu : findUserByEmail db email = some u)
    (hpw : bcryptCompare password u.password = true)
    (hrole : u.role ≠ role) :
    (login db email password role).1.status = 403 ∧
    (login db email password role).1.message =
      some ("Incorrect role. Registered as " ++ u.role) ∧
    List.IsInfix u.role.data ("Incorrect role. Registered as " ++ u.role).data ∧
    (login db email password role).2 = db := by
  have hmain : login db email password role =
      ({ status := 403, success := false,
         message := some ("Incorrect role. Registered as " ++ u.role),
         role := none, isNewUser := none }, db) := by
    simp [login, hu, hpw, hrole]
  refine ⟨by rw [hmain], by rw [hmain], ?_, by rw [hmain]⟩
  exact ⟨"Incorrect role. Registered as ".data, [], by simp⟩

/-- C4 witness: the concrete wrong-role login yields 403 naming the stored
role "user" and changes nothing. -/
theorem C4_witness :
    (login dbW "asha@example.com" "pw1" "admin").1.status = 403 ∧
    (login dbW "asha@example.com" "pw1" "admin").1.message =
      some ("Incorrect role. Registered as " ++ userW.role) ∧
    List.IsInfix userW.role.data
      ("Incorrect role. Registered as " ++ userW.role).data ∧
    (login dbW "asha@example.com" "pw1" "admin").2 = dbW :=
  C4_login_role_mismatch dbW "asha@example.com" "pw1" "admin" userW
    (by decide) (by decide) (by decide)

/-- C5: a successful login returns isNewUser equal to the stored
isFirstLogin before the flip, persists isFirstLogin = false, and every
subsequent successful login returns isNewUser = false and changes nothing
further; in particular the first login of a freshly signed-up user (stored
isFirstLogin = true) returns isNewUser = true exactly once. -/
theorem C5_login_isNewUser (db : DB) (email password role : String) (u : UserDoc)
    (hu : findUserByEmail db email = some u)
    (hpw : bcryptCompare password u.password = true)
    (hrole : u.role = role) :
    (login db email password role).1.status = 200 ∧
    (login db email password role).1.isNewUser = some u.isFirstLogin ∧
    findUserByEmail (login db email password role).2 email =
      some { u with isFirstLogin := false } ∧
    (login (login db email password role).2 email password role).1.isNewUser =
      some false ∧
    (login (login db email password role).2 email password role).2 =
      (login db email password role).2 := by
  subst hrole
  cases hf : u.isFirstLogin with
  | true =>
    have h1 : login db email password u.role =
        ({ status := 200, success := true, message := none,
           role := some u.role, isNewUser := some true },
         saveUser db { u with isFirstLogin := false }) := by
      simp [login, hu, hpw, hf]
    have hfind2 : findUserByEmail (saveUser db { u with isFirstLogin := false }) email
        = some { u with isFirstLogin := false } := by
      unfold findUserByEmail saveUser
      exact find_email_after_update db.users email u _ hu rfl rfl
    have h2 : login (saveUser db { u with isFirstLogin := false }) email password u.role =
        ({ status := 200, success := true, message := none,
           role := some u.role, isNewUser := some false },
         saveUser db { u with isFirstLogin := false }) := by
      simp [login, hfind2, hpw]
    rw [h1]
    exact ⟨rfl, rfl, hfind2, by rw [h2], by rw [h2]⟩
  | false =>
    have hu2 : ({ u with isFirstLogin := false } : UserDoc) = u := by
      cases u; simp_all
    have h1 : login db email password u.role =
        ({ status := 200, success := true, message := none,
           role := some u.role, isNewUser := some false }, db) := by
      simp [login, hu, hpw, hf]
    rw [h1]
    refine ⟨rfl, rfl, ?_, by rw [h1], by rw [h1]⟩
    rw [hu2]
    exact hu

/-- C5 witness: the fresh user of dbW gets isNewUser = true on the first
successful login, the flip is persisted, and the second login returns
isNewUser = false. -/
theorem C5_witness :
    (login dbW "asha@example.com" "pw1" "user").1.status = 200 ∧
    (login dbW "asha@example.com" "pw1" "user").1.isNewUser = some userW.isFirstLogin ∧
    findUserByEmail (login dbW "asha@example.com" "pw1" "user").2 "asha@example.com" =
      some { userW with isFirstLogin := false } ∧
    (login (login dbW "asha@example.com" "pw1" "user").2
        "asha@example.com" "pw1" "user").1.isNewUser = some false ∧
    (login (login dbW "asha@example.com" "pw1" "user").2
        "asha@example.com" "pw1" "user").2 =
      (login dbW "asha@example.com" "pw1" "user").2 :=
  C5_login_isNewUser dbW "asha@example.com" "pw1" "user" userW
    (by decide) (by decide) (by decide)

/-- Adding a productId that the found user's wishlist already holds leaves
the database unchanged, and adding a fresh one appends it; a second
identical request therefore finds the productId present and no-ops. -/
theorem addToWishlist_idem (db : DB) (email : String) (pid : Id) :
    (addToWishlist (addToWishlist db email pid).2 email pid).2 =
      (addToWishlist db email pid).2 := by
  cases hu : findUserByEmail db email with
  | none => simp [addToWishlist, hu]
  | some u =>
    by_cases hc : pid ∈ u.wishlist
    · simp [addToWishlist, hu, hc]
    · have h1 : (addToWishlist db email pid).2 =
          saveUser db { u with wishlist := u.wishlist ++ [pid] } := by
        simp [addToWishlist, hu, hc]
      have hfind2 : findUserByEmail
          (saveUser db { u with wishlist := u.wishlist ++ [pid] }) email =
          some { u with wishlist := u.wishlist ++ [pid] } := by
        unfold findUserByEmail saveUser
        exact find_email_after_update db.users email u _ hu rfl rfl
      have hc2 : pid ∈ ({ u with wishlist := u.wishlist ++ [pid] } : UserDoc).wishlist := by
        simp
      rw [h1]
      simp [addToWishlist, hfind2, hc2]

/-- A single POST /wishlist preserves the per-user bound of at most one
occurrence of every productId. -/
theorem addToWishlist_preserves_bound (db : DB) (email : String) (pid : Id)
    (hinv : ∀ u ∈ db.users, ∀ q, u.wishlist.count q ≤ 1) :
    ∀ u ∈ (addToWishlist db email pid).2.users, ∀ q, u.wishlist.count q ≤ 1 := by
  cases hu : findUserByEmail db email with
  | none =>
    intro v hv q
    have h1 : (addToWishlist db email pid).2 = db := by simp [addToWishlist, hu]
    rw [h1] at hv
    exact hinv v hv q
  | some u =>
    by_cases hc : pid ∈ u.wishlist
    · intro v hv q
      have h1 : (addToWishlist db email pid).2 = db := by simp [addToWishlist, hu, hc]
      rw [h1] at hv
      exact hinv v hv q
    · intro v hv q
      have h1 : (addToWishlist db email pid).2 =
          saveUser db { u with wishlist := u.wishlist ++ [pid] } := by
        simp [addToWishlist, hu, hc]
      rw [h1] at hv
      rcases List.mem_map.1 hv with ⟨w, hw, hmap⟩
      have humem : u ∈ db.users :=
        List.mem_of_find?_eq_some (p := fun (v : UserDoc) => v.email == email) hu
      have hpid : pid ∉ u.wishlist := hc
      by_cases hid : (w.id == ({ u with wishlist := u.wishlist ++ [pid] } :
          UserDoc).id) = true
      · rw [if_pos hid] at hmap
        rw [← hmap]
        by_cases hq : q = pid
        · subst hq
          have h0 : u.wishlist.count q = 0 := List.count_eq_zero.2 hpid
          simp [List.count_append, h0]
        · have h0 : List.count q [pid] = 0 := by
            simp [List.count_singleton]
            intro hqq
            exact hq hqq.symm
          simp [List.count_append, h0]
          exact hinv u humem q
      · rw [if_neg hid] at hmap
        rw [← hmap]
        exact hinv w hw q

/-- Every sequence of POST /wishlist requests preserves the per-user bound
of at most one occurrence of every productId. -/
theorem applyWishlistOps_preserves (db : DB) (ops : List (String × Id))
    (hinv : ∀ u ∈ db.users, ∀ q, u.wishlist.count q ≤ 1) :
    ∀ u ∈ (applyWishlistOps db ops).users, ∀ q, u.wishlist.count q ≤ 1 := by
  induction ops generalizing db with
  | nil => exact hinv
  | cons op t ih =>
    cases op with
    | mk email pid => exact ih _ (addToWishlist_preserves_bound db email pid hinv)

/-- C6: addToWishlist is idempotent — repeating the same request leaves the
database exactly as after the first request — and in every database state
reachable by wishlist requests from a state whose wishlists hold each
productId at most once (as all signup-created users do, starting empty),
every user's wishlist still holds each productId at most once. -/
theorem C6_wishlist_set_semantics :
    (∀ db email pid,
      (addToWishlist (addToWishlist db email pid).2 email pid).2 =
        (addToWishlist db email pid).2) ∧
    (∀ db ops, (∀ u ∈ db.users, ∀ q, u.wishlist.count q ≤ 1) →
      ∀ u ∈ (applyWishlistOps db ops).users, ∀ q, u.wishlist.count q ≤ 1) :=
  ⟨addToWishlist_idem, applyWishlistOps_preserves⟩

/-- C6 witness: adding product 5 twice for the dbW user is the same state
as adding it once, and the resulting user holds 5 at most once. -/
theorem C6_witness :
    (addToWishlist (addToWishlist dbW "asha@example.com" 5).2
        "asha@example.com" 5).2 = (addToWishlist dbW "asha@example.com" 5).2 ∧
    userW5.wishlist.count 5 ≤ 1 :=
  ⟨C6_wishlist_set_semantics.1 dbW "asha@example.com" 5,
   C6_wishlist_set_semantics.2 dbW [("asha@example.com", 5), ("asha@example.com", 5)]
     (by
       intro u hu q
       have hueq : u = userW := by
         have h2 : dbW.users = [userW] := rfl
         rw [h2, List.mem_singleton] at hu
         exact hu
       subst hueq
       simp [userW])
     userW5 (by decide) 5⟩

/-- C7: getAnalytics returns totalRevenue equal to the sum of totalAmount
over all persisted Orders, and 0 when the Orders collection is empty. -/
theorem C7_analytics_revenue (db : DB) :
    (getAnalytics db).totalRevenue = (db.orders.map (fun o => o.totalAmount)).sum ∧
    (db.orders = [] → (getAnalytics db).totalRevenue = 0) := by
  constructor
  · cases ho : db.orders with
    | nil => simp [getAnalytics, aggregateRevenue, revenueOrZero, ho]
    | cons o t =>
      simp only [getAnalytics, aggregateRevenue, revenueOrZero, ho]
      by_cases h : ((o :: t).map (fun o => o.totalAmount)).sum = 0
      · rw [if_pos h, h]
      · rw [if_neg h]
  · intro h
    simp [getAnalytics, aggregateRevenue, revenueOrZero, h]

/-- C7 witness: the empty Orders collection of dbW yields totalRevenue 0. -/
theorem C7_witness : (getAnalytics dbW).totalRevenue = 0 :=
  (C7_analytics_revenue dbW).2 rfl

/-- C8: deleting a product id with no matching document still answers
success with status 200 and leaves the database — in particular the
Products collection — unchanged. -/
theorem C8_delete_missing_product (db : DB) (i : Id)
    (h : findProductById db i = none) :
    (deleteProduct db i).1.status = 200 ∧ (deleteProduct db i).1.success = true ∧
    (deleteProduct db i).2 = db := by
  have hall : ∀ p ∈ db.products, ¬ ((p.id == i) = true) :=
    List.find?_eq_none.1 h
  have herase : db.products.eraseP (fun p => p.id == i) = db.products :=
    List.eraseP_of_forall_not hall
  refine ⟨rfl, rfl, ?_⟩
  simp [deleteProduct, herase]

/-- C8 witness: deleting the absent product id 9 from dbW succeeds and
changes nothing. -/
theorem C8_witness :
    (deleteProduct dbW 9).1.status = 200 ∧ (deleteProduct dbW 9).1.success = true ∧
    (deleteProduct dbW 9).2 = dbW :=
  C8_delete_missing_product dbW 9 (by decide)

/-- C9: the required-field check of createProduct tests JS truthiness, so a
request whose price is 0 (or whose name is the empty string) is rejected
with 400 "All fields required" and creates no Product, even when every
field was supplied. -/
theorem C9_truthiness_rejects (db : DB) (req : ProductReq)
    (h : req.price = some 0 ∨ req.name = some "") :
    (createProduct db req).1.status = 400 ∧
    (createProduct db req).1.message = some "All fields required" ∧
    (createProduct db req).2 = db := by
  have hfalse : (truthyStr req.name && truthyInt req.price &&
      truthyStr req.category) = false := by
    rcases h with h | h <;> simp [h, truthyInt, truthyStr]
  simp [createProduct, hfalse]

/-- C9 witness: the all-fields-supplied request with price 0 is rejected
with 400 and dbW is unchanged. -/
theorem C9_witness :
    (createProduct dbW prodReqZeroPrice).1.status = 400 ∧
    (createProduct dbW prodReqZeroPrice).1.message = some "All fields required" ∧
    (createProduct dbW prodReqZeroPrice).2 = dbW :=
  C9_truthiness_rejects dbW prodReqZeroPrice (Or.inl (by decide))

/-- C10: a signup request that omits the role field and passes the
password-confirmation and unique-email checks creates a User persisted with
the schema-default role "user", and the response's role field is "user". -/
theorem C10_signup_role_default (db : DB) (req : SignupReq)
    (hrole : req.role = none)
    (hpw : req.password = req.confirm)
    (hnew : findUserByEmail db req.email = none) :
    (signup db req).1.status = 200 ∧
    (signup db req).1.role = some "user" ∧
    ∃ u, findUserByEmail (signup db req).2 req.email = some u ∧ u.role = "user" := by
  have hne : ¬ (req.password ≠ req.confirm) := by simp [hpw]
  have h1 : signup db req =
      ({ status := 200, success := true, message := none,
         role := some "user", isNewUser := none },
       { db with
         users := db.users ++
           [{ id := db.nextId, name := req.name, email := req.email,
              password := bcryptHash req.password, role := "user",
              isFirstLogin := true, wishlist := [] }],
         nextId := db.nextId + 1 }) := by
    simp [signup, hne, hnew, hrole, resolveRole]
  rw [h1]
  refine ⟨rfl, rfl, ?_⟩
  refine ⟨{ id := db.nextId, name := req.name, email := req.email,
            password := bcryptHash req.password, role := "user",
            isFirstLogin := true, wishlist := [] }, ?_, rfl⟩
  unfold findUserByEmail
  exact find_append_single _ db.users _ hnew (by simp)

/-- C10 witness: the concrete role-less signup on dbW answers role "user"
and persists a user with role "user". -/
theorem C10_witness :
    (signup dbW signupReqNoRole).1.status = 200 ∧
    (signup dbW signupReqNoRole).1.role = some "user" ∧
    ∃ u, findUserByEmail (signup dbW signupReqNoRole).2 signupReqNoRole.email =
      some u ∧ u.role = "user" :=
  C10_signup_role_default dbW signupReqNoRole (by decide) (by decide) (by decide)

end Backend
